import Mathlib

/-!
Verification of the OpenFang credential-resolution and request-authorization
subsystem (`openfang-runtime/src/auth_profiles_store.rs` and
`openfang-api/src/middleware.rs`), as a shallow embedding in Lean 4.

Modelling conventions:
- Rust `HashMap` fields of the persisted store are modelled as association
  lists (`List (String × α)`); `HashMap::insert` replaces the existing entry
  in place and `HashMap::remove` deletes it, which `alInsert`/`alErase` mirror
  for lookup purposes.
- File persistence (`load_store`/`save_store`) is modelled by explicit state
  passing: every mutating operation takes the loaded store and returns the
  store it persists.  I/O failure paths of `save_store` carry no algorithmic
  content and always succeed in the model.
- The process environment (`std::env::var`) is an explicit function
  `String → Option String`.
- "now" (epoch milliseconds) is an explicit `Nat` argument.
- Rust `&str` byte sequences are modelled by `strBytes` (UTF-8 encoding of
  the character sequence); `u32`/`u64` values are `Nat` (no arithmetic in the
  modelled code can overflow them: priorities are only copied or taken as a
  minimum of existing values, never increased).
- `usize::MAX` (64-bit target) is the literal `2 ^ 64 - 1`.
- Rust `str::trim` / `to_lowercase` are modelled by the structural
  `strTrim` / `strLower` below; these agree with Rust on ASCII input, which
  is the domain the store's identifiers live in.
-/

namespace OpenFang

/-- One stored profile entry (`StoredAuthProfile` in `auth_profiles_store.rs`). -/
structure StoredAuthProfile where
  provider : String
  kind : String
  env_var : String
  priority : Nat
deriving DecidableEq, Repr

/-- Optional usage/cooldown state (`ProfileUsageStats`). -/
structure ProfileUsageStats where
  last_used_at_ms : Option Nat
  last_failure_at_ms : Option Nat
  error_count : Nat
  cooldown_until_ms : Option Nat
deriving DecidableEq, Repr

/-- On-disk auth profile store (`AuthProfileStore`); `HashMap`s as assoc lists. -/
structure AuthProfileStore where
  version : Nat
  profiles : List (String × StoredAuthProfile)
  order : List (String × List String)
  last_good : List (String × String)
  usage_stats : List (String × ProfileUsageStats)
deriving DecidableEq, Repr

/-- The default (empty) store produced for a missing or corrupt file. -/
def AuthProfileStore.defaultStore : AuthProfileStore :=
  { version := 1, profiles := [], order := [], last_good := [], usage_stats := [] }

/-- Resolved profile selection (`ResolvedProfileEnv`): a pointer to the
credential's environment variable, never the secret value itself. -/
structure ResolvedProfileEnv where
  profile_id : String
  env_var : String
deriving DecidableEq, Repr

/-- Model of `HashMap::insert` on an association list: replace the first entry with the
given key in place, or append a fresh entry. -/
def alInsert (k : String) (v : α) : List (String × α) → List (String × α)
  | [] => [(k, v)]
  | e :: rest => if e.1 == k then (k, v) :: rest else e :: alInsert k v rest

/-- Model of `HashMap::remove` on an association list: drop every entry with the key. -/
def alErase (k : String) (l : List (String × α)) : List (String × α) :=
  l.filter (fun e => e.1 != k)

/-- Model of `Iterator::min` over a list of `Nat` (Rust returns `None` on empty). -/
def listMinNat : List Nat → Option Nat
  | [] => none
  | x :: rest =>
    match listMinNat rest with
    | none => some x
    | some m => some (Nat.min x m)

/-! ### String primitives

Structurally recursive models of the Rust `str` operations the code uses
(`trim`, `to_lowercase`, `is_empty`, `split`, `strip_prefix`, `starts_with`,
numeric parsing).  They work on the character list of the string, so every
definition in this file evaluates by kernel reduction on concrete input. -/

/-- Rust `str::trim` (on the ASCII whitespace the identifiers here use). -/
def strTrim (s : String) : String :=
  ⟨((s.data.dropWhile Char.isWhitespace).reverse.dropWhile Char.isWhitespace).reverse⟩

/-- Rust `str::to_lowercase` (ASCII range). -/
def strLower (s : String) : String :=
  ⟨s.data.map Char.toLower⟩

/-- Rust `str::is_empty`. -/
def strIsEmpty (s : String) : Bool :=
  s.data.isEmpty

/-- Rust `str::split` with a single-character separator (on char lists). -/
def splitChar (sep : Char) : List Char → List (List Char)
  | [] => [[]]
  | c :: rest =>
    let r := splitChar sep rest
    if c == sep then [] :: r
    else
      match r with
      | h :: t => (c :: h) :: t
      | [] => [[c]]

/-- Rust `str::split` with a single-character separator. -/
def strSplitChar (sep : Char) (s : String) : List String :=
  (splitChar sep s.data).map (fun l => ⟨l⟩)

/-- Drop a prefix from a char list, or fail. -/
def dropPreList : List Char → List Char → Option (List Char)
  | l, [] => some l
  | [], _ :: _ => none
  | c :: cs, p :: ps => if c == p then dropPreList cs ps else none

/-- Rust `str::strip_prefix`. -/
def strip_pre (s p : String) : Option String :=
  (dropPreList s.data p.data).map (fun l => ⟨l⟩)

/-- Rust `str::starts_with`. -/
def strStartsWith (s p : String) : Bool :=
  (dropPreList s.data p.data).isSome

/-- Decimal digit-string value accumulator. -/
def decNatAux : List Char → Nat → Option Nat
  | [], acc => some acc
  | c :: cs, acc =>
    if c.isDigit then decNatAux cs (acc * 10 + (c.toNat - 48)) else none

/-- Parse a non-empty all-digit string as a `Nat`. -/
def decNat? (l : List Char) : Option Nat :=
  if l.isEmpty then none else decNatAux l 0

/-- Rust `Iterator::position`: index of the first element satisfying `p`. -/
def listPosition (p : α → Bool) : List α → Option Nat
  | [] => none
  | a :: l => if p a then some 0 else (listPosition p l).map (fun i => i + 1)

/-! ### Store operations (`auth_profiles_store.rs`) -/

/-- Model of `upsert_env_profile`: trim/lower-case the keys, reject empty inputs, give
the new profile the minimum existing priority among the provider's profiles
(default 100), insert it under `"<provider>:<profile_name>"` and make it the
provider's `last_good`.  The persisted store is returned alongside the id. -/
def upsert_env_profile (store : AuthProfileStore)
    (provider profile_name env_var kind : String) :
    Except String (String × AuthProfileStore) :=
  let provider := strLower (strTrim provider)
  let profile_name := strLower (strTrim profile_name)
  let env_var := strTrim env_var
  if strIsEmpty provider || strIsEmpty profile_name || strIsEmpty env_var then
    .error "provider/profile/env_var cannot be empty"
  else
    let profile_id := provider ++ ":" ++ profile_name
    let next_priority :=
      (listMinNat ((store.profiles.filter
        (fun e => e.2.provider == provider)).map (fun e => e.2.priority))).getD 100
    let kindVal := if strIsEmpty (strTrim kind) then "api_key" else strLower (strTrim kind)
    let store' : AuthProfileStore :=
      { store with
        profiles := alInsert profile_id
          { provider := provider, kind := kindVal, env_var := env_var,
            priority := next_priority } store.profiles,
        last_good := alInsert provider profile_id store.last_good }
    .ok (profile_id, store')

/-- Model of `remove_profile`: empty keys return `Ok(false)` untouched; otherwise, when
the composed id exists, delete it, prune the provider's `order` list (dropping
the list entirely when it empties), clear `last_good` iff it pointed at the
removed id, drop the profile's `usage_stats`, and persist. -/
def remove_profile (store : AuthProfileStore) (provider profile_name : String) :
    Except String (Bool × AuthProfileStore) :=
  let provider := strLower (strTrim provider)
  let profile_name := strLower (strTrim profile_name)
  if strIsEmpty provider || strIsEmpty profile_name then
    .ok (false, store)
  else
    let profile_id := provider ++ ":" ++ profile_name
    if (List.lookup profile_id store.profiles).isSome then
      let last_good' :=
        if List.lookup provider store.last_good == some profile_id then
          alErase provider store.last_good
        else store.last_good
      let order' :=
        match List.lookup provider store.order with
        | some l =>
          let l' := l.filter (fun id => id != profile_id)
          if l'.isEmpty then alErase provider store.order
          else alInsert provider l' store.order
        | none => store.order
      let store' : AuthProfileStore :=
        { store with
          profiles := alErase profile_id store.profiles,
          last_good := last_good',
          order := order',
          usage_stats := alErase profile_id store.usage_stats }
      .ok (true, store')
    else
      .ok (false, store)

/-- Model of `touch_last_good`: empty (after trim) provider or profile id returns
success without loading or mutating the store; otherwise the provider's
`last_good` pointer is set to the trimmed profile id — with no check that any
profile with that id exists — and the store is persisted. -/
def touch_last_good (store : AuthProfileStore) (provider profile_id : String) :
    AuthProfileStore :=
  let provider := strLower (strTrim provider)
  let profile_id := strTrim profile_id
  if strIsEmpty provider || strIsEmpty profile_id then store
  else { store with last_good := alInsert provider profile_id store.last_good }

/-! ### Profile resolution (`resolve_env_var_for_provider`) -/

/-- The value of `usize::MAX` on the 64-bit targets the code runs on. -/
def USIZE_MAX : Nat := 2 ^ 64 - 1

/-- The candidates collected for a (normalized) provider: all profiles whose
`provider` field matches. -/
def candidatesFor (store : AuthProfileStore) (provider : String) :
    List (String × StoredAuthProfile) :=
  store.profiles.filter (fun e => e.2.provider == provider)

/-- The 3-key sort tuple from `resolve_env_var_for_provider`:
(`last_good` rank, position in the explicit `order` list or `usize::MAX`,
numeric priority). -/
def sortKey (lastGood : Option String) (orderedIds : List String)
    (c : String × StoredAuthProfile) : Nat × Nat × Nat :=
  ((if lastGood == some c.1 then 0 else 1),
   (listPosition (fun pid => pid == c.1) orderedIds).getD USIZE_MAX,
   c.2.priority)

/-- Lexicographic `≤` on the 3-key tuples (the order `sort_by_key` uses). -/
def lexLe3 (a b : Nat × Nat × Nat) : Prop :=
  a.1 < b.1 ∨ (a.1 = b.1 ∧ (a.2.1 < b.2.1 ∨ (a.2.1 = b.2.1 ∧ a.2.2 ≤ b.2.2)))

instance lexLe3.instDec (a b : Nat × Nat × Nat) : Decidable (lexLe3 a b) := by
  unfold lexLe3
  exact inferInstance

/-- The sorted candidate list of `resolve_env_var_for_provider` (Rust
`sort_by_key` is a stable sort; so is `List.insertionSort`). -/
def sortedCandidatesFor (store : AuthProfileStore) (provider : String) :
    List (String × StoredAuthProfile) :=
  let orderedIds := (List.lookup provider store.order).getD []
  let lastGood := List.lookup provider store.last_good
  List.insertionSort
    (fun c d => lexLe3 (sortKey lastGood orderedIds c) (sortKey lastGood orderedIds d))
    (candidatesFor store provider)

/-- The survival test of the resolver's walk: non-blank `env_var`, no active
cooldown (`cooldown_until_ms > now` skips), and the named environment variable
set to a non-whitespace value. -/
def profile_usable (store : AuthProfileStore) (env : String → Option String)
    (now : Nat) (c : String × StoredAuthProfile) : Bool :=
  !(strIsEmpty (strTrim c.2.env_var)) &&
  (match List.lookup c.1 store.usage_stats with
   | some stats =>
     match stats.cooldown_until_ms with
     | some cd => decide (cd ≤ now)
     | none => true
   | none => true) &&
  (match env c.2.env_var with
   | some v => !(strIsEmpty (strTrim v))
   | none => false)

/-- Model of `resolve_env_var_for_provider`: normalize the provider, bail out on empty
provider or no candidates, sort by the 3-key tuple, and return the first
usable candidate as a `ResolvedProfileEnv`. -/
def resolve_env_var_for_provider (store : AuthProfileStore)
    (env : String → Option String) (now : Nat) (provider : String) :
    Option ResolvedProfileEnv :=
  let provider := strLower (strTrim provider)
  if strIsEmpty provider then none
  else if (candidatesFor store provider).isEmpty then none
  else
    ((sortedCandidatesFor store provider).find? (profile_usable store env now)).map
      (fun c => { profile_id := c.1, env_var := c.2.env_var })

/-! ### Spec-side descriptions used to state the resolver claims -/

/-- The explicit-order rank as the spec describes it: the position in the
provider's `order` list, or "infinity" (`none`) if absent. -/
def specOrderRank (orderedIds : List String) (c : String × StoredAuthProfile) :
    Option Nat :=
  listPosition (fun pid => pid == c.1) orderedIds

/-- Strict order on spec ranks, `none` playing "infinity". -/
def optRankLt : Option Nat → Option Nat → Prop
  | some i, some j => i < j
  | some _, none => True
  | none, _ => False

/-- The spec's 3-key ascending order: `last_good` first, then position in the
explicit `order` list (absent = infinity), then numeric priority. -/
def specLe (lastGood : Option String) (orderedIds : List String)
    (c d : String × StoredAuthProfile) : Prop :=
  (if lastGood == some c.1 then (0 : Nat) else 1) <
      (if lastGood == some d.1 then (0 : Nat) else 1) ∨
  ((if lastGood == some c.1 then (0 : Nat) else 1) =
      (if lastGood == some d.1 then (0 : Nat) else 1) ∧
    (optRankLt (specOrderRank orderedIds c) (specOrderRank orderedIds d) ∨
      (specOrderRank orderedIds c = specOrderRank orderedIds d ∧
        c.2.priority ≤ d.2.priority)))

/-- The skip test exactly as the (amended) claim words it: skip when the
profile's `env_var` is whitespace-only, when usage stats carry a
`cooldown_until` strictly in the future, or when the named environment
variable is unset or whitespace-only. -/
def spec_skip (store : AuthProfileStore) (env : String → Option String)
    (now : Nat) (c : String × StoredAuthProfile) : Bool :=
  strIsEmpty (strTrim c.2.env_var) ||
  (match List.lookup c.1 store.usage_stats with
   | some stats =>
     match stats.cooldown_until_ms with
     | some cd => decide (now < cd)
     | none => false
   | none => false) ||
  (match env c.2.env_var with
   | some v => strIsEmpty (strTrim v)
   | none => true)

/-- The walk as the claim words it: return the first candidate that is not
skipped, as profile id plus env var; nothing if all are skipped. -/
def spec_walk (store : AuthProfileStore) (env : String → Option String)
    (now : Nat) : List (String × StoredAuthProfile) → Option ResolvedProfileEnv
  | [] => none
  | c :: rest =>
    if spec_skip store env now c then spec_walk store env now rest
    else some { profile_id := c.1, env_var := c.2.env_var }

/-! ### Secret comparison (`ApiAuthState::safe_equal_secret`) -/

/-- UTF-8 encoding of a Unicode code point, as byte values. -/
def utf8Bytes (n : Nat) : List Nat :=
  if n < 0x80 then [n]
  else if n < 0x800 then [0xC0 + n / 0x40, 0x80 + n % 0x40]
  else if n < 0x10000 then
    [0xE0 + n / 0x1000, 0x80 + (n / 0x40) % 0x40, 0x80 + n % 0x40]
  else
    [0xF0 + n / 0x40000, 0x80 + (n / 0x1000) % 0x40, 0x80 + (n / 0x40) % 0x40, 0x80 + n % 0x40]

/-- The byte sequence of a Rust `&str` (UTF-8 encoding of its characters). -/
def strBytes (s : String) : List Nat :=
  s.data.flatMap (fun c => utf8Bytes c.toNat)

/-- Model of `subtle::ConstantTimeEq::ct_eq` on byte slices: true iff same length and
byte-wise equal (the constant-time execution profile is not observable in a
functional model; the value is). -/
def ct_eq (a b : List Nat) : Bool :=
  a.length == b.length && (List.zip a b).all (fun p => p.1 == p.2)

/-- Model of `ApiAuthState::safe_equal_secret`: reject on differing byte length before
any content comparison, else constant-time compare the bytes. -/
def safe_equal_secret (input expected : String) : Bool :=
  if (strBytes input).length != (strBytes expected).length then false
  else ct_eq (strBytes input) (strBytes expected)

/-! ### Auth state construction (`middleware.rs`) -/

/-- An IP address (`std::net::IpAddr`). -/
inductive IpAddr where
  | v4 (a b c d : Nat)
  | v6 (a b c d e f g h : Nat)
deriving DecidableEq, Repr

/-- Model of `IpAddr::is_loopback`: `127.0.0.0/8` for v4, `::1` for v6. -/
def IpAddr.is_loopback : IpAddr → Bool
  | .v4 a _ _ _ => a == 127
  | .v6 a b c d e f g hh =>
    a == 0 && b == 0 && c == 0 && d == 0 && e == 0 && f == 0 && g == 0 && hh == 1

/-- One dotted-quad octet as Rust's IPv4 text parser accepts it: decimal
digits only, no redundant leading zero, value at most 255. -/
def ipv4Octet (s : String) : Option Nat :=
  match decNat? s.data with
  | some n =>
    if n ≤ 255 && (s.data.length == 1 || s.data.head? != some '0') then some n
    else none
  | none => none

/-- Model of `str::parse::<IpAddr>` for dotted-quad IPv4 text.  IPv6 textual parsing is
not modelled — no claim depends on it, and unparsable entries are dropped by
the construction below exactly as parse failures are in the code. -/
def parse_ip (s : String) : Option IpAddr :=
  match strSplitChar '.' s with
  | [a, b, c, d] =>
    match ipv4Octet a, ipv4Octet b, ipv4Octet c, ipv4Octet d with
    | some a', some b', some c', some d' => some (.v4 a' b' c' d')
    | _, _, _, _ => none
  | _ => none

/-- Modelled from the spec: the `api_auth.trusted_proxy` table of
`openfang-types::config` (only its declaration lives outside the sample):
an identity header name and a list of trusted IP strings. -/
structure TrustedProxyConfig where
  user_header : String
  trusted_ips : List String

/-- Modelled from the spec: the configured `api_auth.mode` enum of
`openfang-types::config` (`None`, `Token`, `Password`, `TrustedProxy`). -/
inductive ApiAuthMode where
  | None
  | Token
  | Password
  | TrustedProxy
deriving DecidableEq, Repr

/-- Modelled from the spec: the `[api_auth]` section of the kernel config. -/
structure ApiAuthConfig where
  mode : ApiAuthMode
  token_env : String
  password_env : String
  trusted_proxy : TrustedProxyConfig

/-- Modelled from the spec: the slice of `KernelConfig` the middleware reads
(`api_key` plus the `[api_auth]` section). -/
structure KernelConfig where
  api_key : String
  api_auth : ApiAuthConfig

/-- Effective runtime auth mode (`ApiAuthRuntimeMode`). -/
inductive ApiAuthRuntimeMode where
  | LocalhostOnly
  | Token
  | Password
  | TrustedProxy
deriving DecidableEq, Repr

/-- Resolved runtime auth state (`ApiAuthState`). -/
structure ApiAuthState where
  mode : ApiAuthRuntimeMode
  token : Option String
  password : Option String
  trusted_proxy_user_header : String
  trusted_proxy_ips : List IpAddr

/-- Model of `ApiAuthState::from_kernel_config`: resolve token/password secrets from
config plus environment (blank counts as unset), parse the trusted-proxy IP
list dropping unparsable entries, downgrade Token/Password to LocalhostOnly
when the secret did not resolve, and default the identity header name. -/
def ApiAuthState.from_kernel_config (config : KernelConfig)
    (env : String → Option String) : ApiAuthState :=
  let token :=
    if !(strIsEmpty (strTrim config.api_key)) then some config.api_key
    else if strIsEmpty (strTrim config.api_auth.token_env) then none
    else (env config.api_auth.token_env).filter (fun v => !(strIsEmpty (strTrim v)))
  let password :=
    if strIsEmpty (strTrim config.api_auth.password_env) then none
    else (env config.api_auth.password_env).filter (fun v => !(strIsEmpty (strTrim v)))
  let trusted_proxy_ips :=
    config.api_auth.trusted_proxy.trusted_ips.filterMap parse_ip
  let mode :=
    match config.api_auth.mode with
    | .None => ApiAuthRuntimeMode.LocalhostOnly
    | .Token =>
      if token.isSome then ApiAuthRuntimeMode.Token
      else ApiAuthRuntimeMode.LocalhostOnly
    | .Password =>
      if password.isSome then ApiAuthRuntimeMode.Password
      else ApiAuthRuntimeMode.LocalhostOnly
    | .TrustedProxy => ApiAuthRuntimeMode.TrustedProxy
  { mode := mode, token := token, password := password,
    trusted_proxy_user_header :=
      if strIsEmpty (strTrim config.api_auth.trusted_proxy.user_header) then
        "x-openfang-user"
      else config.api_auth.trusted_proxy.user_header,
    trusted_proxy_ips := trusted_proxy_ips }

/-! ### The per-request auth gate (`middleware::auth`) -/

/-- The request data `auth` consumes: path and query of the URI, the header
map, and the peer address when connection metadata is present. -/
structure AuthRequest where
  path : String
  query : Option String
  headers : List (String × String)
  remote_ip : Option IpAddr

/-- Model of `HeaderMap::get`: header names compare case-insensitively. -/
def header_get (headers : List (String × String)) (name : String) : Option String :=
  (headers.find? (fun e => strLower e.1 == strLower name)).map (fun e => e.2)

/-- Model of `ApiAuthState::query_value`: first `key=`-prefixed `&`-separated pair. -/
def query_value (query : Option String) (key : String) : Option String :=
  query.bind (fun q => (strSplitChar '&' q).findSome? (fun pair => strip_pre pair (key ++ "=")))

/-- Model of `trusted_proxy_ok`: non-empty trusted set containing the remote IP, and a
non-blank identity header present. -/
def trusted_proxy_ok (st : ApiAuthState) (headers : List (String × String))
    (remote_ip : IpAddr) : Bool :=
  !st.trusted_proxy_ips.isEmpty &&
  st.trusted_proxy_ips.contains remote_ip &&
  ((header_get headers st.trusted_proxy_user_header).map
    (fun v => !(strIsEmpty (strTrim v)))).getD false

/-- The outcome of the `auth` middleware: pass the request on, or a denial
response.  A denial's body in the code is `json!({"error": msg})` — a JSON
object with the single field `error`; the model carries `status`, the extra
response headers, and that error message. -/
inductive AuthDecision where
  | allowed
  | denied (status : Nat) (headers : List (String × String)) (error : String)
deriving DecidableEq, Repr

/-- An apostrophe, as a string. -/
def squote : String := String.mk [Char.ofNat 39]

/-- The fixed allowlist of public paths that bypass auth in `auth`. -/
def allowlisted (path : String) : Bool :=
  path == "/" || path == "/api/health" || path == "/api/health/detail" ||
  path == "/api/status" || path == "/api/version" || path == "/api/agents" ||
  path == "/api/profiles" || path == "/api/config" ||
  strStartsWith path "/api/uploads/"

/-- The `auth` middleware decision function.  Absent connection metadata
defaults the remote address to `127.0.0.1`. -/
def auth (st : ApiAuthState) (req : AuthRequest) : AuthDecision :=
  if allowlisted req.path then .allowed
  else
    let remote_ip := req.remote_ip.getD (IpAddr.v4 127 0 0 1)
    match st.mode with
    | .LocalhostOnly =>
      if remote_ip.is_loopback then .allowed
      else
        .denied 403 [("content-type", "application/json")]
          "No API auth configured. Remote access denied. Configure [api_auth] in ~/.openfang/config.toml"
    | .Token =>
      let token := st.token.getD ""
      let header_auth :=
        (header_get req.headers "authorization").bind (fun v => strip_pre v "Bearer ")
      let query_auth := query_value req.query "token"
      let ok :=
        (header_auth.map (fun c => safe_equal_secret c token)).getD false ||
        (query_auth.map (fun c => safe_equal_secret c token)).getD false
      if ok then .allowed
      else
        let msg :=
          if header_auth.isSome || query_auth.isSome then "Invalid API token"
          else "Missing Authorization: Bearer <token> header"
        .denied 401 [("www-authenticate", "Bearer")] msg
    | .Password =>
      let password := st.password.getD ""
      let header_auth := header_get req.headers "x-openfang-password"
      let query_auth := query_value req.query "password"
      let ok :=
        (header_auth.map (fun c => safe_equal_secret c password)).getD false ||
        (query_auth.map (fun c => safe_equal_secret c password)).getD false
      if ok then .allowed
      else
        let msg :=
          if header_auth.isSome || query_auth.isSome then "Invalid API password"
          else "Missing x-openfang-password header"
        .denied 401 [] msg
    | .TrustedProxy =>
      if trusted_proxy_ok st req.headers remote_ip then .allowed
      else
        .denied 401 []
          ("Trusted proxy auth failed (expected header " ++ squote ++
            st.trusted_proxy_user_header ++ squote ++ ")")

/-- Predicate `envBlank env name` says the environment variable `name` is unset or
whitespace-only under `env` — the spec's "did not resolve" condition. -/
def envBlank (env : String → Option String) (name : String) : Prop :=
  match env name with
  | none => True
  | some v => strIsEmpty (strTrim v) = true

instance envBlank.instDec (env : String → Option String) (name : String) :
    Decidable (envBlank env name) := by
  unfold envBlank
  cases env name with
  | none => exact inferInstanceAs (Decidable True)
  | some v => exact inferInstanceAs (Decidable (strIsEmpty (strTrim v) = true))

/-! ### Concrete stores, environments and configurations used as witnesses -/

/-- Scenario store of the spec: `openai:default` (priority 100) and
`openai:backup` (priority 50); no `order` entries, no `last_good`. -/
def c1Store : AuthProfileStore :=
  { version := 1,
    profiles :=
      [("openai:default",
        { provider := "openai", kind := "api_key",
          env_var := "OPENAI_DEFAULT_KEY", priority := 100 }),
       ("openai:backup",
        { provider := "openai", kind := "api_key",
          env_var := "OPENAI_BACKUP_KEY", priority := 50 })],
    order := [], last_good := [], usage_stats := [] }

/-- Environment for the scenario: both env vars hold non-blank secrets. -/
def c1Env : String → Option String := fun name =>
  if name == "OPENAI_BACKUP_KEY" then some "sk-backup"
  else if name == "OPENAI_DEFAULT_KEY" then some "sk-default"
  else none

/-- A store whose only profile has a whitespace-only `env_var`. -/
def c2Store : AuthProfileStore :=
  { version := 1,
    profiles :=
      [("p:a", { provider := "p", kind := "api_key", env_var := " ", priority := 100 })],
    order := [], last_good := [], usage_stats := [] }

/-- An environment in which the variable named by a single space is set. -/
def c2Env : String → Option String := fun name =>
  if name == " " then some "x" else none

/-- Trim + lower-case normalization applied to provider / profile-name keys. -/
def normKey (s : String) : String := strLower (strTrim s)

/-- The composed profile id `"<provider>:<profile_name>"`. -/
def composedId (provider profile_name : String) : String :=
  normKey provider ++ ":" ++ normKey profile_name

/-- A store with one `groq` profile that is `last_good`, listed in `order`,
and carrying usage stats. -/
def c8Store : AuthProfileStore :=
  { version := 1,
    profiles :=
      [("groq:default",
        { provider := "groq", kind := "api_key", env_var := "GROQ_KEY", priority := 100 })],
    order := [("groq", ["groq:default"])],
    last_good := [("groq", "groq:default")],
    usage_stats :=
      [("groq:default",
        { last_used_at_ms := some 5, last_failure_at_ms := none,
          error_count := 2, cooldown_until_ms := some 10 })] }

/-- A config requesting Token mode whose token env var will not resolve. -/
def c3TokenConfig : KernelConfig :=
  { api_key := "",
    api_auth :=
      { mode := .Token, token_env := "OPENFANG_API_TOKEN", password_env := "",
        trusted_proxy := { user_header := "", trusted_ips := [] } } }

/-- A config requesting TrustedProxy mode with an empty trusted IP list. -/
def c3ProxyConfig : KernelConfig :=
  { api_key := "",
    api_auth :=
      { mode := .TrustedProxy, token_env := "", password_env := "",
        trusted_proxy := { user_header := "", trusted_ips := [] } } }

/-- An empty environment. -/
def emptyEnv : String → Option String := fun _ => none

/-- A runtime state in Token mode with token `"abc123"`. -/
def tokenState : ApiAuthState :=
  { mode := .Token, token := some "abc123", password := none,
    trusted_proxy_user_header := "x-openfang-user", trusted_proxy_ips := [] }

/-- A runtime state in LocalhostOnly mode. -/
def localhostState : ApiAuthState :=
  { mode := .LocalhostOnly, token := none, password := none,
    trusted_proxy_user_header := "x-openfang-user", trusted_proxy_ips := [] }

/-- A request to a guarded path bearing the correct token. -/
def goodTokenReq : AuthRequest :=
  { path := "/api/jobs", query := none,
    headers := [("authorization", "Bearer abc123")],
    remote_ip := some (.v4 203 0 113 7) }

/-- The same request with a wrong token. -/
def badTokenReq : AuthRequest :=
  { path := "/api/jobs", query := none,
    headers := [("authorization", "Bearer abc124")],
    remote_ip := some (.v4 203 0 113 7) }

/-- A guarded-path request with no credential from a remote address. -/
def remoteReq : AuthRequest :=
  { path := "/api/jobs", query := none, headers := [],
    remote_ip := some (.v4 203 0 113 7) }

/-- A guarded-path request with absent connection metadata. -/
def noPeerReq : AuthRequest :=
  { path := "/api/jobs", query := none, headers := [], remote_ip := none }

end OpenFang

namespace OpenFang

lemma ct_eq_eq_true_iff : ∀ a b : List Nat, ct_eq a b = true ↔ a = b := by
  intro a
  induction a with
  | nil =>
    intro b
    cases b with
    | nil => simp [ct_eq]
    | cons y ys => simp [ct_eq]
  | cons x xs ih =>
    intro b
    cases b with
    | nil => simp [ct_eq]
    | cons y ys =>
      simp only [ct_eq, List.zip_cons_cons, List.all_cons, List.length_cons,
        Bool.and_eq_true, beq_iff_eq, Nat.add_right_cancel_iff, List.cons.injEq] at *
      constructor
      · rintro ⟨hlen, hx, hall⟩
        exact ⟨hx, (ih ys).mp ⟨hlen, hall⟩⟩
      · rintro ⟨hx, hys⟩
        have := (ih ys).mpr hys
        exact ⟨this.1, hx, this.2⟩

/-- C6: `safe_equal_secret` returns false whenever the byte lengths differ
(before any content comparison), and returns true iff the two strings are
byte-for-byte identical. -/
theorem safe_equal_secret_spec (a b : String) :
    ((strBytes a).length ≠ (strBytes b).length → safe_equal_secret a b = false) ∧
    (safe_equal_secret a b = true ↔ strBytes a = strBytes b) := by
  constructor
  · intro hne
    simp [safe_equal_secret, hne]
  · constructor
    · intro h
      by_cases hl : (strBytes a).length = (strBytes b).length
      · simp only [safe_equal_secret, hl, ne_eq, bne_self_eq_false] at h
        rw [if_neg (by simp [hl])] at h
        exact (ct_eq_eq_true_iff _ _).mp h
      · simp [safe_equal_secret, hl] at h
    · intro h
      simp [safe_equal_secret, h, ct_eq_eq_true_iff]

/-- Witness for C6 at concrete inputs: differing lengths are rejected, and a
byte-identical pair is accepted. -/
theorem safe_equal_secret_spec_witness :
    safe_equal_secret "ab" "abc" = false ∧ safe_equal_secret "abc123" "abc123" = true :=
  ⟨(safe_equal_secret_spec "ab" "abc").1 (by decide),
   (safe_equal_secret_spec "abc123" "abc123").2.mpr (by decide)⟩

end OpenFang

namespace OpenFang

/-! ### Association-list and minimum lemmas -/

lemma lookup_alInsert_self (k : String) (v : α) :
    ∀ l : List (String × α), List.lookup k (alInsert k v l) = some v := by
  intro l
  induction l with
  | nil => simp [alInsert, List.lookup]
  | cons e rest ih =>
    by_cases h : e.1 = k
    · simp [alInsert, h, List.lookup]
    · have hk : (k == e.1) = false := beq_eq_false_iff_ne.mpr (Ne.symm h)
      simp [alInsert, h, List.lookup, hk, ih]

lemma lookup_alErase_self (k : String) :
    ∀ l : List (String × α), List.lookup k (alErase k l) = none := by
  intro l
  induction l with
  | nil => simp [alErase, List.lookup]
  | cons e rest ih =>
    by_cases h : e.1 = k
    · have hne : (e.1 != k) = false := by simp [bne, h]
      simp only [alErase, List.filter_cons, hne] at ih ⊢
      simpa using ih
    · have hne : (e.1 != k) = true := by simp [bne, h]
      have hk : (k == e.1) = false := beq_eq_false_iff_ne.mpr (Ne.symm h)
      simp only [alErase, List.filter_cons, hne] at ih ⊢
      simp [List.lookup, hk]
      simpa using ih

lemma listMinNat_mem_le :
    ∀ (l : List Nat) (m : Nat), listMinNat l = some m → m ∈ l ∧ ∀ x ∈ l, m ≤ x := by
  intro l
  induction l with
  | nil => intro m h; cases h
  | cons x rest ih =>
    intro m h
    cases hr : listMinNat rest with
    | none =>
      have hrest : rest = [] := by
        cases rest with
        | nil => rfl
        | cons y ys =>
          exfalso
          cases hy : listMinNat ys <;> simp [listMinNat, hy] at hr
      subst hrest
      simp only [listMinNat, Option.some.injEq] at h
      subst h
      simp
    | some m' =>
      simp only [listMinNat, hr, Option.some.injEq] at h
      obtain ⟨hmem, hle⟩ := ih m' hr
      subst h
      constructor
      · rcases Nat.le_total x m' with hx | hx
        · have hxm : Nat.min x m' = x := Nat.min_eq_left hx
          rw [hxm]
          exact List.mem_cons_self x rest
        · have hxm : Nat.min x m' = m' := Nat.min_eq_right hx
          rw [hxm]
          exact List.mem_cons_of_mem x hmem
      · intro z hz
        rcases List.mem_cons.mp hz with rfl | hzr
        · exact Nat.min_le_left z m'
        · exact le_trans (Nat.min_le_right x m') (hle z hzr)

lemma listMinNat_eq_none_iff (l : List Nat) : listMinNat l = none ↔ l = [] := by
  cases l with
  | nil => simp [listMinNat]
  | cons x rest =>
    cases hr : listMinNat rest <;> simp [listMinNat, hr]

/-! ### C9 and C10 -/

/-- Counterexample to C9 as stated: `remove_profile` with an empty provider is
not rejected with a descriptive error message — it returns `Ok(false)` (and
leaves the store untouched). -/
theorem remove_profile_empty_provider_no_error :
    remove_profile AuthProfileStore.defaultStore "" "name" =
      .ok (false, AuthProfileStore.defaultStore) := by
  rfl

/-- C9 (amended): an upsert with an empty (after trimming) provider or profile
name is rejected synchronously with a descriptive error message and no state
mutation; a remove with an empty provider or profile name returns `false`
without an error and with the store unchanged. -/
theorem caller_input_error_spec (store : AuthProfileStore)
    (provider profile_name env_var kind : String)
    (h : strIsEmpty (normKey provider) = true ∨ strIsEmpty (normKey profile_name) = true) :
    upsert_env_profile store provider profile_name env_var kind =
      .error "provider/profile/env_var cannot be empty" ∧
    remove_profile store provider profile_name = .ok (false, store) := by
  simp only [normKey] at h
  constructor
  · simp only [upsert_env_profile]
    rcases h with h1 | h1
    · simp [h1]
    · simp [h1]
  · simp only [remove_profile]
    rcases h with h1 | h1
    · simp [h1]
    · simp [h1]

/-- Witness for C9 (amended) at a whitespace-only provider. -/
theorem caller_input_error_spec_witness :
    upsert_env_profile c8Store "  " "default" "GROQ_KEY" "api_key" =
      .error "provider/profile/env_var cannot be empty" ∧
    remove_profile c8Store "  " "default" = .ok (false, c8Store) :=
  caller_input_error_spec c8Store "  " "default" "GROQ_KEY" "api_key" (Or.inl (by decide))

/-- C10: with non-empty (after trimming) arguments, `touch_last_good` sets the
provider's `last_good` pointer to the trimmed profile id and persists, without
checking that any profile with that id exists (all other store fields are
untouched); with an empty argument it succeeds without mutating anything. -/
theorem touch_last_good_spec (store : AuthProfileStore) (provider profile_id : String) :
    (strIsEmpty (normKey provider) = false → strIsEmpty (strTrim profile_id) = false →
      List.lookup (normKey provider) (touch_last_good store provider profile_id).last_good =
        some (strTrim profile_id) ∧
      (touch_last_good store provider profile_id).profiles = store.profiles ∧
      (touch_last_good store provider profile_id).order = store.order ∧
      (touch_last_good store provider profile_id).usage_stats = store.usage_stats) ∧
    (strIsEmpty (normKey provider) = true ∨ strIsEmpty (strTrim profile_id) = true →
      touch_last_good store provider profile_id = store) := by
  constructor
  · intro hp hpid
    simp only [normKey] at hp
    simp [touch_last_good, normKey, hp, hpid, lookup_alInsert_self]
  · intro h
    simp only [normKey] at h
    rcases h with h | h
    · simp [touch_last_good, h]
    · simp [touch_last_good, h]

/-- Witness for C10: touching `last_good` on the empty store records a pointer
to a profile id that no profile has — a dangling reference. -/
theorem touch_last_good_spec_witness :
    List.lookup "openai"
        (touch_last_good AuthProfileStore.defaultStore "openai" "openai:ghost").last_good =
      some "openai:ghost" ∧
    (touch_last_good AuthProfileStore.defaultStore "openai" "openai:ghost").profiles =
      AuthProfileStore.defaultStore.profiles :=
  ⟨((touch_last_good_spec AuthProfileStore.defaultStore "openai" "openai:ghost").1
      (by decide) (by decide)).1,
   ((touch_last_good_spec AuthProfileStore.defaultStore "openai" "openai:ghost").1
      (by decide) (by decide)).2.1⟩

end OpenFang

namespace OpenFang

/-! ### C7: upsert priority assignment and last_good -/

/-- C7: a valid upsert returns the id `"<provider>:<profile_name>"` (both
parts trimmed and lower-cased), points the provider's `last_good` at it, and
gives the new profile the minimum priority among the provider's existing
profiles — 100 when it has none. -/
theorem upsert_env_profile_spec (store : AuthProfileStore)
    (provider profile_name env_var kind : String)
    (hp : strIsEmpty (normKey provider) = false)
    (hn : strIsEmpty (normKey profile_name) = false)
    (he : strIsEmpty (strTrim env_var) = false) :
    ∃ prof store2,
      upsert_env_profile store provider profile_name env_var kind =
        .ok (composedId provider profile_name, store2) ∧
      List.lookup (normKey provider) store2.last_good =
        some (composedId provider profile_name) ∧
      List.lookup (composedId provider profile_name) store2.profiles = some prof ∧
      (candidatesFor store (normKey provider) = [] → prof.priority = 100) ∧
      (∀ e ∈ candidatesFor store (normKey provider), prof.priority ≤ e.2.priority) ∧
      (candidatesFor store (normKey provider) ≠ [] →
        ∃ e ∈ candidatesFor store (normKey provider), prof.priority = e.2.priority) := by
  have hp' : strIsEmpty (strLower (strTrim provider)) = false := by simpa [normKey] using hp
  have hn' : strIsEmpty (strLower (strTrim profile_name)) = false := by simpa [normKey] using hn
  simp only [upsert_env_profile]
  rw [if_neg (by simp [hp', hn', he])]
  refine
    ⟨{ provider := strLower (strTrim provider),
       kind := if strIsEmpty (strTrim kind) then "api_key" else strLower (strTrim kind),
       env_var := strTrim env_var,
       priority := (listMinNat ((store.profiles.filter
         (fun e => e.2.provider == strLower (strTrim provider))).map
           (fun e => e.2.priority))).getD 100 },
     _, rfl, ?_, ?_, ?_, ?_, ?_⟩
  · simpa [normKey, composedId] using
      lookup_alInsert_self (strLower (strTrim provider))
        (strLower (strTrim provider) ++ ":" ++ strLower (strTrim profile_name))
        store.last_good
  · simpa [normKey, composedId] using
      lookup_alInsert_self
        (strLower (strTrim provider) ++ ":" ++ strLower (strTrim profile_name))
        { provider := strLower (strTrim provider),
          kind := if strIsEmpty (strTrim kind) then "api_key" else strLower (strTrim kind),
          env_var := strTrim env_var,
          priority := (listMinNat ((store.profiles.filter
            (fun e => e.2.provider == strLower (strTrim provider))).map
              (fun e => e.2.priority))).getD 100 }
        store.profiles
  · intro hempty
    simp only [candidatesFor, normKey] at hempty
    simp [hempty, listMinNat]
  · intro e hmem
    simp only [candidatesFor, normKey] at hmem
    cases hmin : listMinNat ((store.profiles.filter
        (fun e => e.2.provider == strLower (strTrim provider))).map
          (fun e => e.2.priority)) with
    | none =>
      exfalso
      have hnil := (listMinNat_eq_none_iff _).mp hmin
      have hv : e.2.priority ∈ (store.profiles.filter
          (fun e => e.2.provider == strLower (strTrim provider))).map
            (fun e => e.2.priority) :=
        List.mem_map_of_mem _ hmem
      rw [hnil] at hv
      exact List.not_mem_nil _ hv
    | some m =>
      have hv : e.2.priority ∈ (store.profiles.filter
          (fun e => e.2.provider == strLower (strTrim provider))).map
            (fun e => e.2.priority) :=
        List.mem_map_of_mem _ hmem
      have hle := (listMinNat_mem_le _ _ hmin).2 _ hv
      simpa [hmin] using hle
  · intro hne
    simp only [candidatesFor, normKey] at hne
    cases hmin : listMinNat ((store.profiles.filter
        (fun e => e.2.provider == strLower (strTrim provider))).map
          (fun e => e.2.priority)) with
    | none =>
      exfalso
      have hnil := (listMinNat_eq_none_iff _).mp hmin
      rw [List.map_eq_nil_iff] at hnil
      exact hne hnil
    | some m =>
      have hmem := (listMinNat_mem_le _ _ hmin).1
      rw [List.mem_map] at hmem
      obtain ⟨e, hmeme, hval⟩ := hmem
      refine ⟨e, by simpa [candidatesFor, normKey] using hmeme, ?_⟩
      simp [hmin, hval]

/-- Witness for C7: upserting a third `openai` profile into the scenario
store assigns it the existing minimum priority and makes it last_good. -/
theorem upsert_env_profile_spec_witness :
    ∃ prof store2,
      upsert_env_profile c1Store "openai" "tertiary" "OPENAI_THIRD_KEY" "" =
        .ok (composedId "openai" "tertiary", store2) ∧
      List.lookup (normKey "openai") store2.last_good =
        some (composedId "openai" "tertiary") ∧
      List.lookup (composedId "openai" "tertiary") store2.profiles = some prof ∧
      (candidatesFor c1Store (normKey "openai") = [] → prof.priority = 100) ∧
      (∀ e ∈ candidatesFor c1Store (normKey "openai"), prof.priority ≤ e.2.priority) ∧
      (candidatesFor c1Store (normKey "openai") ≠ [] →
        ∃ e ∈ candidatesFor c1Store (normKey "openai"), prof.priority = e.2.priority) :=
  upsert_env_profile_spec c1Store "openai" "tertiary" "OPENAI_THIRD_KEY" ""
    (by decide) (by decide) (by decide)

/-! ### C8: remove_profile -/

/-- C8: with non-empty normalized keys, removing an existing composed id
returns true, deletes the profile, removes the id from the provider's order
list, clears `last_good` iff it pointed at the removed id, and deletes the
profile's usage stats; removing a missing id returns false and leaves the
persisted store unchanged. -/
theorem remove_profile_spec (store : AuthProfileStore) (provider profile_name : String)
    (hp : strIsEmpty (normKey provider) = false)
    (hn : strIsEmpty (normKey profile_name) = false) :
    ((List.lookup (composedId provider profile_name) store.profiles).isSome = true →
      ∃ store2,
        remove_profile store provider profile_name = .ok (true, store2) ∧
        List.lookup (composedId provider profile_name) store2.profiles = none ∧
        composedId provider profile_name ∉
          (List.lookup (normKey provider) store2.order).getD [] ∧
        List.lookup (normKey provider) store2.last_good =
          (if List.lookup (normKey provider) store.last_good =
              some (composedId provider profile_name)
           then none
           else List.lookup (normKey provider) store.last_good) ∧
        List.lookup (composedId provider profile_name) store2.usage_stats = none) ∧
    (List.lookup (composedId provider profile_name) store.profiles = none →
      remove_profile store provider profile_name = .ok (false, store)) := by
  have hp' : strIsEmpty (strLower (strTrim provider)) = false := by simpa [normKey] using hp
  have hn' : strIsEmpty (strLower (strTrim profile_name)) = false := by simpa [normKey] using hn
  constructor
  · intro hsome
    simp only [composedId, normKey] at hsome
    simp only [remove_profile]
    rw [if_neg (by simp [hp', hn'])]
    rw [if_pos hsome]
    refine ⟨_, rfl, ?_, ?_, ?_, ?_⟩
    · simpa [composedId, normKey] using
        lookup_alErase_self
          (strLower (strTrim provider) ++ ":" ++ strLower (strTrim profile_name))
          store.profiles
    · simp only [composedId, normKey]
      cases horder : List.lookup (strLower (strTrim provider)) store.order with
      | none => simp [horder]
      | some l =>
        cases hemp : (l.filter (fun id => id !=
            strLower (strTrim provider) ++ ":" ++ strLower (strTrim profile_name))).isEmpty with
        | true => simp [horder, hemp, lookup_alErase_self]
        | false =>
          simp only [horder, hemp, Bool.false_eq_true, if_false, lookup_alInsert_self,
            Option.getD_some]
          intro hmem
          have hpf := List.of_mem_filter hmem
          simp at hpf
    · simp only [composedId, normKey]
      by_cases hlg : List.lookup (strLower (strTrim provider)) store.last_good =
          some (strLower (strTrim provider) ++ ":" ++ strLower (strTrim profile_name))
      · simp [hlg, lookup_alErase_self]
      · have hlgb : (List.lookup (strLower (strTrim provider)) store.last_good ==
            some (strLower (strTrim provider) ++ ":" ++ strLower (strTrim profile_name)))
            = false := by
          simpa using hlg
        simp [hlg, hlgb]
    · simpa [composedId, normKey] using
        lookup_alErase_self
          (strLower (strTrim provider) ++ ":" ++ strLower (strTrim profile_name))
          store.usage_stats
  · intro hnone
    simp only [composedId, normKey] at hnone
    simp only [remove_profile]
    rw [if_neg (by simp [hp', hn'])]
    rw [if_neg (by simp [hnone])]

/-- Witness for C8: removing `groq:default` (which is last_good, in the order
list, and has usage stats) succeeds and prunes everything; removing a
non-existent profile of the same provider returns false unchanged. -/
theorem remove_profile_spec_witness :
    (∃ store2,
      remove_profile c8Store "groq" "default" = .ok (true, store2) ∧
      List.lookup (composedId "groq" "default") store2.profiles = none ∧
      composedId "groq" "default" ∉ (List.lookup (normKey "groq") store2.order).getD [] ∧
      List.lookup (normKey "groq") store2.last_good =
        (if List.lookup (normKey "groq") c8Store.last_good =
            some (composedId "groq" "default")
         then none
         else List.lookup (normKey "groq") c8Store.last_good) ∧
      List.lookup (composedId "groq" "default") store2.usage_stats = none) ∧
    remove_profile c8Store "groq" "missing" = .ok (false, c8Store) :=
  ⟨(remove_profile_spec c8Store "groq" "default" (by decide) (by decide)).1 (by decide),
   (remove_profile_spec c8Store "groq" "missing" (by decide) (by decide)).2 (by decide)⟩

end OpenFang

namespace OpenFang

/-! ### C3: auth-state construction and the downgrade rule -/

/-- C3: a requested Token mode with a blank `api_key` and an unresolvable
token env var, or a requested Password mode with an unresolvable password env
var, downgrades the effective mode to LocalhostOnly; a requested TrustedProxy
mode is never downgraded, whatever the trusted IP list holds. -/
theorem from_kernel_config_mode_spec (config : KernelConfig) (env : String → Option String) :
    (config.api_auth.mode = .Token → strIsEmpty (strTrim config.api_key) = true →
      envBlank env config.api_auth.token_env →
      (ApiAuthState.from_kernel_config config env).mode = .LocalhostOnly) ∧
    (config.api_auth.mode = .Password → envBlank env config.api_auth.password_env →
      (ApiAuthState.from_kernel_config config env).mode = .LocalhostOnly) ∧
    (config.api_auth.mode = .TrustedProxy →
      (ApiAuthState.from_kernel_config config env).mode = .TrustedProxy) := by
  refine ⟨?_, ?_, ?_⟩
  · intro hm hk hb
    have htok : (if !(strIsEmpty (strTrim config.api_key)) then some config.api_key
        else if strIsEmpty (strTrim config.api_auth.token_env) then none
        else (env config.api_auth.token_env).filter
          (fun v => !(strIsEmpty (strTrim v)))) = none := by
      rw [hk]
      simp only [Bool.not_true, Bool.false_eq_true, if_false]
      by_cases hte : strIsEmpty (strTrim config.api_auth.token_env) = true
      · simp [hte]
      · unfold envBlank at hb
        cases henv : env config.api_auth.token_env with
        | none => simp [hte, henv]
        | some v =>
          rw [henv] at hb
          simp [hte, henv, Option.filter, hb]
    simp only [Bool.not_eq_true'] at htok
    simp [ApiAuthState.from_kernel_config, hm, htok]
  · intro hm hb
    have hpw : (if strIsEmpty (strTrim config.api_auth.password_env) then none
        else (env config.api_auth.password_env).filter
          (fun v => !(strIsEmpty (strTrim v)))) = none := by
      by_cases hpe : strIsEmpty (strTrim config.api_auth.password_env) = true
      · simp [hpe]
      · unfold envBlank at hb
        cases henv : env config.api_auth.password_env with
        | none => simp [hpe, henv]
        | some v =>
          rw [henv] at hb
          simp [hpe, henv, Option.filter, hb]
    simp [ApiAuthState.from_kernel_config, hm, hpw]
  · intro hm
    simp [ApiAuthState.from_kernel_config, hm]

/-- Witness for C3: a Token-mode config with blank api_key and an unset token
env var lands in LocalhostOnly; a TrustedProxy config with an empty IP list
stays TrustedProxy. -/
theorem from_kernel_config_mode_spec_witness :
    (ApiAuthState.from_kernel_config c3TokenConfig emptyEnv).mode = .LocalhostOnly ∧
    (ApiAuthState.from_kernel_config c3ProxyConfig emptyEnv).mode = .TrustedProxy :=
  ⟨(from_kernel_config_mode_spec c3TokenConfig emptyEnv).1 rfl (by decide) (by decide),
   (from_kernel_config_mode_spec c3ProxyConfig emptyEnv).2.2 rfl⟩

/-! ### C4 and C5: the request gate -/

/-- C4: in Token mode, a guarded request is allowed iff the Bearer-header
candidate or the `token` query candidate matches the configured token; every
denial is a 401 carrying `WWW-Authenticate: Bearer` whose error message says
the token is invalid when a candidate was present and that the Bearer header
is missing when none was — without affecting the allow decision. -/
theorem auth_token_mode_spec (st : ApiAuthState) (req : AuthRequest)
    (hm : st.mode = .Token) (hp : allowlisted req.path = false) :
    (auth st req = .allowed ↔
      ((∃ c, (header_get req.headers "authorization").bind
          (fun v => strip_pre v "Bearer ") = some c ∧
          safe_equal_secret c (st.token.getD "") = true) ∨
        (∃ c, query_value req.query "token" = some c ∧
          safe_equal_secret c (st.token.getD "") = true))) ∧
    (auth st req ≠ .allowed →
      auth st req = .denied 401 [("www-authenticate", "Bearer")]
        (if ((header_get req.headers "authorization").bind
              (fun v => strip_pre v "Bearer ")).isSome
            || (query_value req.query "token").isSome
         then "Invalid API token"
         else "Missing Authorization: Bearer <token> header")) := by
  simp only [auth, hp, Bool.false_eq_true, if_false, hm]
  cases hh : (header_get req.headers "authorization").bind (fun v => strip_pre v "Bearer ") with
  | none =>
    cases hq : query_value req.query "token" with
    | none => simp [hh, hq]
    | some c =>
      cases hc : safe_equal_secret c (st.token.getD "") with
      | true => simp [hh, hq, hc]
      | false => simp [hh, hq, hc]
  | some c =>
    cases hq : query_value req.query "token" with
    | none =>
      cases hc : safe_equal_secret c (st.token.getD "") with
      | true => simp [hh, hq, hc]
      | false => simp [hh, hq, hc]
    | some c2 =>
      cases hc : safe_equal_secret c (st.token.getD "") with
      | true => simp [hh, hq, hc]
      | false =>
        cases hc2 : safe_equal_secret c2 (st.token.getD "") with
        | true => simp [hh, hq, hc, hc2]
        | false => simp [hh, hq, hc, hc2]

/-- Witness for C4: the spec scenario — token `"abc123"`, correct Bearer
header allowed; wrong Bearer value denied 401 with the invalid-token
message. -/
theorem auth_token_mode_spec_witness :
    auth tokenState goodTokenReq = .allowed ∧
    auth tokenState badTokenReq =
      .denied 401 [("www-authenticate", "Bearer")] "Invalid API token" := by
  constructor
  · exact (auth_token_mode_spec tokenState goodTokenReq rfl (by decide)).1.mpr
      (Or.inl ⟨"abc123", by decide, by decide⟩)
  · have hspec := (auth_token_mode_spec tokenState badTokenReq rfl (by decide)).2
    have hne : auth tokenState badTokenReq ≠ .allowed := by decide
    have hres := hspec hne
    have hmsg : (((header_get badTokenReq.headers "authorization").bind
        (fun v => strip_pre v "Bearer ")).isSome
        || (query_value badTokenReq.query "token").isSome) = true := by decide
    rw [hmsg] at hres
    simpa using hres

/-- C5: in LocalhostOnly mode, a guarded request is allowed iff the remote IP
is loopback (absent connection metadata defaults to loopback); every denial
is a 403 whose error message says no API auth is configured. -/
theorem auth_localhost_mode_spec (st : ApiAuthState) (req : AuthRequest)
    (hm : st.mode = .LocalhostOnly) (hp : allowlisted req.path = false) :
    (auth st req = .allowed ↔
      (req.remote_ip.getD (IpAddr.v4 127 0 0 1)).is_loopback = true) ∧
    ((req.remote_ip.getD (IpAddr.v4 127 0 0 1)).is_loopback = false →
      auth st req = .denied 403 [("content-type", "application/json")]
        "No API auth configured. Remote access denied. Configure [api_auth] in ~/.openfang/config.toml") := by
  simp only [auth, hp, Bool.false_eq_true, if_false, hm]
  cases hlb : (req.remote_ip.getD (IpAddr.v4 127 0 0 1)).is_loopback with
  | true => simp [hlb]
  | false => simp [hlb]

/-- Witness for C5: a remote request is denied 403 with the no-auth message;
a request with absent connection metadata is treated as loopback and
allowed. -/
theorem auth_localhost_mode_spec_witness :
    auth localhostState remoteReq = .denied 403 [("content-type", "application/json")]
      "No API auth configured. Remote access denied. Configure [api_auth] in ~/.openfang/config.toml" ∧
    auth localhostState noPeerReq = .allowed :=
  ⟨(auth_localhost_mode_spec localhostState remoteReq rfl (by decide)).2 (by decide),
   (auth_localhost_mode_spec localhostState noPeerReq rfl (by decide)).1.mpr (by decide)⟩

end OpenFang

namespace OpenFang

/-! ### C2: the resolver walk -/

lemma profile_usable_eq_not_spec_skip (store : AuthProfileStore)
    (env : String → Option String) (now : Nat) (c : String × StoredAuthProfile) :
    profile_usable store env now c = !spec_skip store env now c := by
  unfold profile_usable spec_skip
  cases hs : List.lookup c.1 store.usage_stats with
  | none =>
    cases he : env c.2.env_var with
    | none => simp
    | some v => simp
  | some stats =>
    cases hcd : stats.cooldown_until_ms with
    | none =>
      cases he : env c.2.env_var with
      | none => simp [hcd]
      | some v => simp [hcd]
    | some cd =>
      have hdec : (decide (cd ≤ now)) = !(decide (now < cd)) := by
        by_cases h : cd ≤ now
        · simp [h, Nat.not_lt.mpr h]
        · simp [h, Nat.lt_of_not_le h]
      cases he : env c.2.env_var with
      | none => simp [hcd, hdec]
      | some v => simp [hcd, hdec]

lemma find_eq_spec_walk (store : AuthProfileStore) (env : String → Option String)
    (now : Nat) :
    ∀ l, ((l.find? (profile_usable store env now)).map
        (fun c => ({ profile_id := c.1, env_var := c.2.env_var } : ResolvedProfileEnv))) =
      spec_walk store env now l := by
  intro l
  induction l with
  | nil => simp [spec_walk]
  | cons c rest ih =>
    cases hu : profile_usable store env now c with
    | true =>
      have hsk : spec_skip store env now c = false := by
        have heq := profile_usable_eq_not_spec_skip store env now c
        rw [hu] at heq
        simpa using heq.symm
      simp [List.find?, hu, spec_walk, hsk]
    | false =>
      have hsk : spec_skip store env now c = true := by
        have heq := profile_usable_eq_not_spec_skip store env now c
        rw [hu] at heq
        simpa using heq.symm
      simp [List.find?, hu, spec_walk, hsk, ih]

/-- Counterexample to C2 as stated: a profile whose `env_var` is a single
space is not the empty string, carries no usage stats, and its named
environment variable is set to a non-whitespace value — by the claim's skip
conditions it survives the walk, yet `resolve` returns nothing (the code
skips on a whitespace-only, not merely empty, `env_var`). -/
theorem resolve_blank_env_var_cex :
    c2Store.profiles =
      [("p:a", { provider := "p", kind := "api_key", env_var := " ", priority := 100 })] ∧
    (" " : String) ≠ "" ∧
    c2Store.usage_stats = [] ∧
    c2Env " " = some "x" ∧
    strIsEmpty (strTrim "x") = false ∧
    resolve_env_var_for_provider c2Store c2Env 0 "p" = none := by
  exact ⟨rfl, by decide, rfl, by decide, by decide, by decide⟩

/-- C2 (amended): for a provider whose normalized name is non-empty, `resolve`
walks the sorted candidates and returns exactly what the claim's walk
(`spec_walk`, skipping on whitespace-only `env_var`, on a `cooldown_until`
strictly in the future, and on an unset or whitespace-only environment
variable) produces — a `ResolvedProfileEnv` of profile id plus env var name;
with zero candidates for the provider it returns nothing. -/
theorem resolve_walk_spec (store : AuthProfileStore) (env : String → Option String)
    (now : Nat) (provider : String)
    (hp : strIsEmpty (normKey provider) = false) :
    (resolve_env_var_for_provider store env now provider =
      if (candidatesFor store (normKey provider)).isEmpty then none
      else spec_walk store env now (sortedCandidatesFor store (normKey provider))) ∧
    (candidatesFor store (normKey provider) = [] →
      resolve_env_var_for_provider store env now provider = none) := by
  have hp' : strIsEmpty (strLower (strTrim provider)) = false := by simpa [normKey] using hp
  constructor
  · simp only [resolve_env_var_for_provider, normKey, hp', Bool.false_eq_true, if_false]
    cases hie : (candidatesFor store (strLower (strTrim provider))).isEmpty with
    | true => simp [hie]
    | false => simp [hie, find_eq_spec_walk]
  · intro hnil
    simp only [normKey] at hnil
    simp only [resolve_env_var_for_provider, hp', Bool.false_eq_true, if_false]
    simp [hnil]

/-- Witness for C2 (amended) on the two-profile scenario store. -/
theorem resolve_walk_spec_witness :
    (resolve_env_var_for_provider c1Store c1Env 0 "openai" =
      if (candidatesFor c1Store (normKey "openai")).isEmpty then none
      else spec_walk c1Store c1Env 0 (sortedCandidatesFor c1Store (normKey "openai"))) ∧
    (candidatesFor c1Store (normKey "openai") = [] →
      resolve_env_var_for_provider c1Store c1Env 0 "openai" = none) :=
  resolve_walk_spec c1Store c1Env 0 "openai" (by decide)

/-! ### C1: the 3-key candidate order -/

lemma lexLe3_total (a b : Nat × Nat × Nat) : lexLe3 a b ∨ lexLe3 b a := by
  unfold lexLe3
  omega

lemma lexLe3_trans (a b c : Nat × Nat × Nat) :
    lexLe3 a b → lexLe3 b c → lexLe3 a c := by
  unfold lexLe3
  omega

lemma listPosition_lt_length (p : α → Bool) :
    ∀ (l : List α) (i : Nat), listPosition p l = some i → i < l.length := by
  intro l
  induction l with
  | nil => intro i h; cases h
  | cons a rest ih =>
    intro i h
    simp only [listPosition] at h
    by_cases hp : p a
    · rw [if_pos hp] at h
      cases h
      simp
    · rw [if_neg hp] at h
      cases hpos : listPosition p rest with
      | none => rw [hpos] at h; cases h
      | some j =>
        rw [hpos] at h
        simp at h
        have := ih j hpos
        simp only [List.length_cons]
        omega

lemma sortKey_le_imp_specLe (lastGood : Option String) (orderedIds : List String)
    (hlen : orderedIds.length < USIZE_MAX) (c d : String × StoredAuthProfile)
    (h : lexLe3 (sortKey lastGood orderedIds c) (sortKey lastGood orderedIds d)) :
    specLe lastGood orderedIds c d := by
  dsimp only [sortKey, lexLe3] at h
  unfold specLe specOrderRank optRankLt
  cases hc : listPosition (fun pid => pid == c.1) orderedIds with
  | none =>
    cases hd : listPosition (fun pid => pid == d.1) orderedIds with
    | none =>
      rw [hc, hd] at h
      simp only [Option.getD_none] at h
      rcases h with h | ⟨heq, h⟩
      · exact Or.inl h
      · refine Or.inr ⟨heq, ?_⟩
        rcases h with h | ⟨_, hpr⟩
        · exact absurd h (lt_irrefl _)
        · exact Or.inr ⟨rfl, hpr⟩
    | some j =>
      have hj := listPosition_lt_length _ _ _ hd
      rw [hc, hd] at h
      simp only [Option.getD_none, Option.getD_some] at h
      rcases h with h | ⟨heq, h⟩
      · exact Or.inl h
      · exfalso
        rcases h with h | ⟨heq2, _⟩
        · omega
        · omega
  | some i =>
    cases hd : listPosition (fun pid => pid == d.1) orderedIds with
    | none =>
      rw [hc, hd] at h
      simp only [Option.getD_none, Option.getD_some] at h
      rcases h with h | ⟨heq, _⟩
      · exact Or.inl h
      · exact Or.inr ⟨heq, Or.inl trivial⟩
    | some j =>
      rw [hc, hd] at h
      simp only [Option.getD_some] at h
      rcases h with h | ⟨heq, h⟩
      · exact Or.inl h
      · refine Or.inr ⟨heq, ?_⟩
        rcases h with h | ⟨hij, hpr⟩
        · exact Or.inl h
        · exact Or.inr ⟨by rw [hij], hpr⟩

/-- C1: the candidate list `resolve` walks is a permutation of the provider's
candidates, sorted ascending by the spec's 3-key tuple — last_good rank
first, then position in the explicit order list with absence as infinity,
then numeric priority (`usize::MAX` realizes "infinity", hence the bound on
the order list) — and on the spec's two-profile scenario (no last_good, no
order entries, env vars set) resolve returns the lower-priority
`openai:backup`. -/
theorem resolve_sort_order_spec (store : AuthProfileStore) (provider : String)
    (hlen : ((List.lookup provider store.order).getD []).length < USIZE_MAX) :
    List.Perm (sortedCandidatesFor store provider) (candidatesFor store provider) ∧
    List.Pairwise
      (specLe (List.lookup provider store.last_good)
        ((List.lookup provider store.order).getD []))
      (sortedCandidatesFor store provider) ∧
    resolve_env_var_for_provider c1Store c1Env 0 "openai" =
      some { profile_id := "openai:backup", env_var := "OPENAI_BACKUP_KEY" } := by
  refine ⟨?_, ?_, by decide⟩
  · simp only [sortedCandidatesFor]
    exact List.perm_insertionSort _ (candidatesFor store provider)
  · simp only [sortedCandidatesFor]
    letI rel : (String × StoredAuthProfile) → (String × StoredAuthProfile) → Prop :=
      fun c d =>
        lexLe3
          (sortKey (List.lookup provider store.last_good)
            ((List.lookup provider store.order).getD []) c)
          (sortKey (List.lookup provider store.last_good)
            ((List.lookup provider store.order).getD []) d)
    letI : IsTotal (String × StoredAuthProfile) rel := ⟨fun a b => lexLe3_total _ _⟩
    letI : IsTrans (String × StoredAuthProfile) rel :=
      ⟨fun a b c hab hbc => lexLe3_trans _ _ _ hab hbc⟩
    have hs := List.sorted_insertionSort rel (candidatesFor store provider)
    exact hs.imp (fun hab => sortKey_le_imp_specLe _ _ hlen _ _ hab)

/-- Witness for C1 at the scenario store (empty order list, so the length
bound holds trivially). -/
theorem resolve_sort_order_spec_witness :
    List.Perm (sortedCandidatesFor c1Store "openai") (candidatesFor c1Store "openai") ∧
    List.Pairwise
      (specLe (List.lookup "openai" c1Store.last_good)
        ((List.lookup "openai" c1Store.order).getD []))
      (sortedCandidatesFor c1Store "openai") ∧
    resolve_env_var_for_provider c1Store c1Env 0 "openai" =
      some { profile_id := "openai:backup", env_var := "OPENAI_BACKUP_KEY" } :=
  resolve_sort_order_spec c1Store "openai" (by decide)

end OpenFang
